import Mathlib

/-!
Verification of the `may_block` clippy lint
(`src/clippy_lints/src/may_block.rs`) against its specification.

The embedding follows the source closely: `MayBlock.check_body` is the
per-body entry point, `check_interior_types` the loop over generator
interior type causes, and `is_blocking` the registry matcher.  Host
(rustc) data that the lint reads is modelled as explicit structures:
spans, type kinds (nominal `Adt` versus everything else), generator
kinds, and a `LateContext` supplying the nominal-path resolver and the
type-check results.  Diagnostics are returned as a list instead of being
handed to the host sink, and the `dbg!` side effect in `check_body` is
recorded in an explicit output field so that it can be reasoned about.
-/

/-- A source span, identified by its low and high byte positions. -/
structure Span where
  lo : Nat
  hi : Nat
deriving DecidableEq, Repr

/-- Definition identifiers (`DefId` in the source), abstracted to `Nat`. -/
abbrev DefId := Nat

/-- The part of `rustc_middle::ty::TyKind` the lint inspects: a type is
either a nominal algebraic data type `adt` carrying the `DefId` of its
definition, or anything else (`other`), which the source's
`if let ty::Adt(adt, _) = ...` match rejects. -/
inductive TyKind where
  | adt (did : DefId)
  | other
deriving DecidableEq, Repr

/-- `rustc_middle::ty::GeneratorInteriorTypeCause`: one value whose type
is part of the generator's interior state, with its type, its
declaration span, and the optional scope span covering the await points
it is held across. -/
structure GeneratorInteriorTypeCause where
  ty : TyKind
  span : Span
  scope_span : Option Span
deriving DecidableEq, Repr

/-- `rustc_hir::AsyncGeneratorKind`: the three async body variants. -/
inductive AsyncGeneratorKind where
  | block
  | closure
  | fn
deriving DecidableEq, Repr

/-- `rustc_hir::GeneratorKind`: async generators (with their variant) or
plain generators. -/
inductive GeneratorKind where
  | async (k : AsyncGeneratorKind)
  | gen
deriving DecidableEq, Repr

/-- The fields of `rustc_hir::Body` the lint reads: its generator
classification, the span of its value expression (`body.value.span`),
and the owning definition (the source derives this through
`BodyId`/`body_owner_def_id`; we record the result directly). -/
structure Body where
  generator_kind : Option GeneratorKind
  value_span : Span
  owner_def_id : DefId
deriving DecidableEq, Repr

/-- The part of `TypeckResults` the lint reads: the ordered list of
generator interior type causes recorded by the type checker. -/
structure TypeckResults where
  generator_interior_types : List GeneratorInteriorTypeCause
deriving DecidableEq, Repr

/-- The host context (`LateContext`): the nominal-path resolver
(`match_def_path` reads the fully-qualified path of a `DefId` as a
sequence of name segments) and the type-check results query
(`cx.tcx.typeck`, a total query). -/
structure LateContext where
  defPath : DefId → List String
  typeck : DefId → TypeckResults

/-- A diagnostic as assembled by `span_lint_and_note`: lint identifier,
primary span and message, optional secondary (note) span, and note
message. -/
structure Diagnostic where
  lint : String
  primarySpan : Span
  primaryMsg : String
  secondarySpan : Option Span
  secondaryMsg : String
deriving DecidableEq, Repr

/-- The lint identifier declared by `declare_clippy_lint!`. -/
def MAY_BLOCK : String := "may_block"

/-- Modelled from the spec: the fully-qualified path of the
standard-library thread-sleep function.  The constant lives in
`clippy_utils::paths` (`paths::THREAD_SLEEP`), which is not included in
the provided sources; the spec describes the registry as holding
fully-qualified identifiers such as a thread-sleep primitive. -/
def THREAD_SLEEP : List String := ["std", "thread", "sleep"]

/-- Modelled from the spec: the `BlockingPrimitiveSet` registry, the
collection of fully-qualified paths the matcher compares against.  The
source's `is_blocking` consults exactly one path, `paths::THREAD_SLEEP`. -/
def BlockingPrimitiveSet : List (List String) := [THREAD_SLEEP]

/-- `is_blocking` from the source: `match_def_path(cx, def_id,
&paths::THREAD_SLEEP)`.  `match_def_path` (from `clippy_utils`, modelled
from the spec) compares the definition's fully-qualified path, as an
ordered sequence of name segments, for exact equality with the given
path. -/
def is_blocking (cx : LateContext) (def_id : DefId) : Bool :=
  cx.defPath def_id == THREAD_SLEEP

/-- The primary message passed to `span_lint_and_note` in the source. -/
def primaryMessage : String :=
  "this blocking function can slow down the async runtime. consider using a non-blocking alternative from the async ecosystem of your runtime."

/-- The note message passed to `span_lint_and_note` in the source. -/
def noteMessage : String :=
  "these are all the await points this lock is held through"

/-- The diagnostic built by the `span_lint_and_note` call in
`check_interior_types`: primary span is the cause's declaration span,
secondary span is `ty_cause.scope_span.or(Some(span))`, messages are the
fixed texts. -/
def mkDiagnostic (span : Span) (ty_cause : GeneratorInteriorTypeCause) : Diagnostic :=
  { lint := MAY_BLOCK
    primarySpan := ty_cause.span
    primaryMsg := primaryMessage
    secondarySpan := ty_cause.scope_span.or (some span)
    secondaryMsg := noteMessage }

/-- One iteration of the loop in `check_interior_types`: if the cause's
type is a nominal `Adt` whose definition `is_blocking`, a diagnostic is
produced; otherwise nothing is. -/
def process_cause (cx : LateContext) (span : Span) (ty_cause : GeneratorInteriorTypeCause) :
    Option Diagnostic :=
  match ty_cause.ty with
  | TyKind.adt did =>
      if is_blocking cx did then some (mkDiagnostic span ty_cause) else none
  | TyKind.other => none

/-- `check_interior_types` from the source: iterate over the causes in
order, emitting a diagnostic for each blocking nominal type. -/
def check_interior_types (cx : LateContext) (ty_causes : List GeneratorInteriorTypeCause)
    (span : Span) : List Diagnostic :=
  ty_causes.filterMap (process_cause cx span)

/-- The observable output of one `check_body` invocation: the
diagnostics handed to the host sink, and the number of `dbg!` dumps of
the body's internal representation written to standard error. -/
structure Output where
  diagnostics : List Diagnostic
  debugDumps : Nat
deriving DecidableEq, Repr

/-- `MayBlock::check_body` from the source: on a body whose
`generator_kind` is `Async(Block | Closure | Fn)`, execute `dbg!(body)`,
look up the type-check results of the owning definition, and run
`check_interior_types` on its `generator_interior_types` with the body
value's span; on any other body, do nothing. -/
def MayBlock.check_body (cx : LateContext) (body : Body) : Output :=
  match body.generator_kind with
  | some (GeneratorKind.async AsyncGeneratorKind.block)
  | some (GeneratorKind.async AsyncGeneratorKind.closure)
  | some (GeneratorKind.async AsyncGeneratorKind.fn) =>
      let typeck_results := cx.typeck body.owner_def_id
      { diagnostics :=
          check_interior_types cx typeck_results.generator_interior_types body.value_span
        debugDumps := 1 }
  | _ => { diagnostics := [], debugDumps := 0 }

/-- Whether a cause's type matches the blocking-primitive registry: it
is nominal and its definition path is registered. -/
def matches_registry (cx : LateContext) (ty_cause : GeneratorInteriorTypeCause) : Bool :=
  match ty_cause.ty with
  | TyKind.adt did => is_blocking cx did
  | TyKind.other => false

/- Concrete host data used to exercise the definitions. -/

/-- Declaration span of the example blocking value. -/
def exDeclSpan : Span := ⟨10, 20⟩

/-- Scope span of the example blocking value. -/
def exScopeSpan : Span := ⟨10, 40⟩

/-- Span of the example body. -/
def exBodySpan : Span := ⟨0, 50⟩

/-- Interior cause: a blocking value with a scope span. -/
def exCause0 : GeneratorInteriorTypeCause :=
  { ty := TyKind.adt 0, span := exDeclSpan, scope_span := some exScopeSpan }

/-- Interior cause: a blocking value without a scope span. -/
def exCause1 : GeneratorInteriorTypeCause :=
  { ty := TyKind.adt 0, span := ⟨21, 29⟩, scope_span := none }

/-- Interior cause: a non-nominal type. -/
def exCause2 : GeneratorInteriorTypeCause :=
  { ty := TyKind.other, span := ⟨30, 35⟩, scope_span := none }

/-- The interior causes of the example async body. -/
def exCauses : List GeneratorInteriorTypeCause := [exCause0, exCause1, exCause2]

/-- An example context: definition 0 is `std::thread::sleep`, definition
1 is a different `sleep` in another crate, definition 2 is
`std::sync::MutexGuard`; the type-check results of definition 7 hold the
three example causes, in order. -/
def exCx : LateContext :=
  { defPath := fun did =>
      if did = 0 then ["std", "thread", "sleep"]
      else if did = 1 then ["other", "thread", "sleep"]
      else if did = 2 then ["std", "sync", "MutexGuard"]
      else []
    typeck := fun did =>
      if did = 7 then { generator_interior_types := exCauses }
      else { generator_interior_types := [] } }

/-- An example async block body owned by definition 7. -/
def exAsyncBody : Body :=
  { generator_kind := some (GeneratorKind.async AsyncGeneratorKind.block)
    value_span := exBodySpan
    owner_def_id := 7 }

/-- The same body classified as synchronous. -/
def exSyncBody : Body :=
  { generator_kind := none
    value_span := exBodySpan
    owner_def_id := 7 }

/- General lemmas about the embedded definitions, shared by the claim
theorems below. -/

/-- `process_cause` emits the diagnostic exactly when the cause matches
the registry. -/
theorem process_cause_eq_ite (cx : LateContext) (span : Span)
    (c : GeneratorInteriorTypeCause) :
    process_cause cx span c =
      if matches_registry cx c then some (mkDiagnostic span c) else none := by
  cases hc : c.ty <;> simp [process_cause, matches_registry, hc]

/-- The diagnostics are exactly the in-order image of the matching
causes. -/
theorem check_interior_types_eq_map_filter (cx : LateContext)
    (ty_causes : List GeneratorInteriorTypeCause) (span : Span) :
    check_interior_types cx ty_causes span =
      (ty_causes.filter (matches_registry cx)).map (mkDiagnostic span) := by
  induction ty_causes with
  | nil => rfl
  | cons c rest ih =>
      simp only [check_interior_types, List.filterMap_cons, process_cause_eq_ite,
        List.filter_cons] at *
      cases h : matches_registry cx c <;> simp [h, ih]

/-- On an async body (any of the three variants), `check_body` dumps the
body once and runs `check_interior_types` on the owner's type-check
results. -/
theorem check_body_async (cx : LateContext) (body : Body) (k : AsyncGeneratorKind)
    (h : body.generator_kind = some (GeneratorKind.async k)) :
    MayBlock.check_body cx body =
      { diagnostics :=
          check_interior_types cx
            (cx.typeck body.owner_def_id).generator_interior_types body.value_span
        debugDumps := 1 } := by
  obtain ⟨gk, vs, od⟩ := body
  cases h
  cases k <;> rfl

/-- On a body not classified as async, `check_body` does nothing. -/
theorem check_body_not_async (cx : LateContext) (body : Body)
    (h : ∀ k, body.generator_kind ≠ some (GeneratorKind.async k)) :
    MayBlock.check_body cx body = { diagnostics := [], debugDumps := 0 } := by
  obtain ⟨gk, vs, od⟩ := body
  cases gk with
  | none => rfl
  | some g =>
      cases g with
      | gen => rfl
      | async k => exact absurd rfl (h k)

/- Claim theorems. -/

/-- C1: for a nominal type, the matcher reports a match iff the type's
fully-qualified path, as an ordered sequence of segments, equals some
entry of the blocking-primitive registry; a path sharing the registry
entry's trailing segment but differing elsewhere never matches. -/
theorem C1_exact_registry_match (cx : LateContext) (did : DefId) :
    (is_blocking cx did = true ↔ cx.defPath did ∈ BlockingPrimitiveSet) ∧
    ((cx.defPath did).getLast? = THREAD_SLEEP.getLast? ∧ cx.defPath did ≠ THREAD_SLEEP →
      is_blocking cx did = false) := by
  constructor
  · simp [is_blocking, BlockingPrimitiveSet]
  · rintro ⟨-, hne⟩
    simp [is_blocking, hne]

/-- Witness for C1: a path ending in the registered trailing segment
but rooted in a different crate does not match. -/
theorem C1_witness : is_blocking exCx 1 = false :=
  (C1_exact_registry_match exCx 1).2 (by decide)

/-- C2: a body whose generator classification is not async yields no
diagnostic and never reaches the interior-value analysis; all three
async variants proceed uniformly into the analysis. -/
theorem C2_async_gate (cx : LateContext) (body : Body) :
    ((∀ k, body.generator_kind ≠ some (GeneratorKind.async k)) →
      MayBlock.check_body cx body = { diagnostics := [], debugDumps := 0 }) ∧
    (∀ k, body.generator_kind = some (GeneratorKind.async k) →
      MayBlock.check_body cx body =
        { diagnostics :=
            check_interior_types cx
              (cx.typeck body.owner_def_id).generator_interior_types body.value_span
          debugDumps := 1 }) :=
  ⟨check_body_not_async cx body, fun k h => check_body_async cx body k h⟩

/-- Witness for C2: the example synchronous body produces no output. -/
theorem C2_witness :
    MayBlock.check_body exCx exSyncBody = { diagnostics := [], debugDumps := 0 } :=
  (C2_async_gate exCx exSyncBody).1 (fun k => by simp [exSyncBody])

/-- C3: every emitted diagnostic carries the cause's declaration span as
primary span, and the cause's scope span as secondary span when present,
the body span otherwise. -/
theorem C3_diagnostic_spans (cx : LateContext) (span : Span)
    (c : GeneratorInteriorTypeCause) (d : Diagnostic)
    (h : process_cause cx span c = some d) :
    d.primarySpan = c.span ∧
    (∀ s, c.scope_span = some s → d.secondarySpan = some s) ∧
    (c.scope_span = none → d.secondarySpan = some span) := by
  rw [process_cause_eq_ite] at h
  by_cases hm : matches_registry cx c = true
  · rw [if_pos hm] at h
    cases h
    refine ⟨rfl, ?_, ?_⟩
    · intro s hs
      simp [mkDiagnostic, hs]
    · intro hs
      simp [mkDiagnostic, hs]
  · rw [if_neg hm] at h
    cases h

/-- Witness for C3: the diagnostic for the example blocking cause has
the cause's declaration span and its scope span. -/
theorem C3_witness :
    (mkDiagnostic exBodySpan exCause0).primarySpan = exCause0.span ∧
    (∀ s, exCause0.scope_span = some s →
      (mkDiagnostic exBodySpan exCause0).secondarySpan = some s) ∧
    (exCause0.scope_span = none →
      (mkDiagnostic exBodySpan exCause0).secondarySpan = some exBodySpan) :=
  C3_diagnostic_spans exCx exBodySpan exCause0 (mkDiagnostic exBodySpan exCause0) (by decide)

/-- C4: on an async body, at most one diagnostic is emitted per
registry-matching interior cause, and a body with no matching cause
yields no diagnostic. -/
theorem C4_at_most_one_per_match (cx : LateContext) (body : Body) (k : AsyncGeneratorKind)
    (h : body.generator_kind = some (GeneratorKind.async k)) :
    (MayBlock.check_body cx body).diagnostics.length ≤
      (((cx.typeck body.owner_def_id).generator_interior_types).filter
        (matches_registry cx)).length ∧
    ((((cx.typeck body.owner_def_id).generator_interior_types).filter
        (matches_registry cx)) = [] →
      (MayBlock.check_body cx body).diagnostics = []) := by
  rw [check_body_async cx body k h]
  constructor
  · simp [check_interior_types_eq_map_filter]
  · intro hempty
    simp [check_interior_types_eq_map_filter, hempty]

/-- Witness for C4: the bound holds on the example async body. -/
theorem C4_witness :
    (MayBlock.check_body exCx exAsyncBody).diagnostics.length ≤
      (((exCx.typeck exAsyncBody.owner_def_id).generator_interior_types).filter
        (matches_registry exCx)).length ∧
    ((((exCx.typeck exAsyncBody.owner_def_id).generator_interior_types).filter
        (matches_registry exCx)) = [] →
      (MayBlock.check_body exCx exAsyncBody).diagnostics = []) :=
  C4_at_most_one_per_match exCx exAsyncBody AsyncGeneratorKind.block rfl

/-- C5: a non-nominal interior cause produces no diagnostic and no
error, and the remaining causes are still processed. -/
theorem C5_non_nominal_skipped (cx : LateContext) (span : Span)
    (c : GeneratorInteriorTypeCause) (rest : List GeneratorInteriorTypeCause)
    (h : c.ty = TyKind.other) :
    process_cause cx span c = none ∧
    check_interior_types cx (c :: rest) span = check_interior_types cx rest span := by
  have hp : process_cause cx span c = none := by
    simp [process_cause, h]
  exact ⟨hp, by simp [check_interior_types, List.filterMap_cons, hp]⟩

/-- Witness for C5: the example non-nominal cause is skipped. -/
theorem C5_witness :
    process_cause exCx exBodySpan exCause2 = none ∧
    check_interior_types exCx (exCause2 :: [exCause0]) exBodySpan =
      check_interior_types exCx [exCause0] exBodySpan :=
  C5_non_nominal_skipped exCx exBodySpan exCause2 [exCause0] rfl

/-- C7: the analysis is deterministic and order-stable: the diagnostic
list is exactly the in-order image of the matching causes, and any two
runs on the same inputs produce the same list. -/
theorem C7_deterministic_order (cx : LateContext)
    (ty_causes : List GeneratorInteriorTypeCause) (span : Span) :
    check_interior_types cx ty_causes span =
      (ty_causes.filter (matches_registry cx)).map (mkDiagnostic span) ∧
    (∀ out1 out2 : List Diagnostic,
      out1 = check_interior_types cx ty_causes span →
      out2 = check_interior_types cx ty_causes span → out1 = out2) :=
  ⟨check_interior_types_eq_map_filter cx ty_causes span,
   fun _ _ h1 h2 => h1.trans h2.symm⟩

/-- Witness for C7: two runs on the example inputs coincide. -/
theorem C7_witness :
    check_interior_types exCx exCauses exBodySpan =
      check_interior_types exCx exCauses exBodySpan :=
  (C7_deterministic_order exCx exCauses exBodySpan).2 _ _ rfl rfl

/-- C8: contrary to the claim, the scanning step does print the internal
representation of every asynchronous body: `check_body` executes
`dbg!(body)` on the example async body, so the debug-dump count is 1,
not 0. -/
theorem C8_debug_dump_emitted :
    (MayBlock.check_body exCx exAsyncBody).debugDumps = 1 ∧
    (MayBlock.check_body exCx exAsyncBody).debugDumps ≠ 0 :=
  ⟨rfl, by rw [show (MayBlock.check_body exCx exAsyncBody).debugDumps = 1 from rfl]; exact one_ne_zero⟩

/-- C9: the registry holds exactly the thread-sleep path and nothing
else (no mutex or lock-guard entry); a match, and hence a diagnostic,
requires the nominal type's definition path to equal that single path. -/
theorem C9_registry_single_entry (cx : LateContext) (did : DefId) :
    BlockingPrimitiveSet = [["std", "thread", "sleep"]] ∧
    (∀ p ∈ BlockingPrimitiveSet, "Mutex" ∉ p ∧ "MutexGuard" ∉ p) ∧
    (is_blocking cx did = true → cx.defPath did = ["std", "thread", "sleep"]) ∧
    (∀ span c d, process_cause cx span c = some d →
      ∃ did2, c.ty = TyKind.adt did2 ∧ cx.defPath did2 = ["std", "thread", "sleep"]) := by
  refine ⟨rfl, by decide, ?_, ?_⟩
  · intro h
    simpa [is_blocking, THREAD_SLEEP] using h
  · intro span c d h
    cases hc : c.ty with
    | adt did2 =>
        refine ⟨did2, rfl, ?_⟩
        rw [process_cause_eq_ite] at h
        by_cases hm : matches_registry cx c = true
        · have : is_blocking cx did2 = true := by
            simpa [matches_registry, hc] using hm
          simpa [is_blocking, THREAD_SLEEP] using this
        · rw [if_neg hm] at h
          cases h
    | other =>
        rw [process_cause_eq_ite] at h
        have hm : matches_registry cx c = false := by
          simp [matches_registry, hc]
        rw [hm] at h
        cases h

/-- Witness for C9: the matching definition in the example context has
exactly the thread-sleep path. -/
theorem C9_witness : exCx.defPath 0 = ["std", "thread", "sleep"] :=
  (C9_registry_single_entry exCx 0).2.2.1 (by decide)

/-- C10: exactly one diagnostic per matching cause with no
deduplication (two equal matching causes yield two diagnostics), and
every emitted diagnostic carries a secondary span. -/
theorem C10_one_per_cause_no_dedup (cx : LateContext)
    (ty_causes : List GeneratorInteriorTypeCause) (span : Span) :
    (check_interior_types cx ty_causes span).length =
      (ty_causes.filter (matches_registry cx)).length ∧
    (∀ c, matches_registry cx c = true →
      check_interior_types cx [c, c] span = [mkDiagnostic span c, mkDiagnostic span c]) ∧
    (∀ d, d ∈ check_interior_types cx ty_causes span → d.secondarySpan.isSome = true) := by
  refine ⟨?_, ?_, ?_⟩
  · simp [check_interior_types_eq_map_filter]
  · intro c hc
    simp [check_interior_types_eq_map_filter, List.filter_cons, hc]
  · intro d hd
    rw [check_interior_types_eq_map_filter] at hd
    obtain ⟨c, -, rfl⟩ := List.mem_map.mp hd
    cases hs : c.scope_span <;> simp [mkDiagnostic, Option.or, hs]

/-- Witness for C10: duplicating the example matching cause yields two
identical diagnostics. -/
theorem C10_witness :
    check_interior_types exCx [exCause0, exCause0] exBodySpan =
      [mkDiagnostic exBodySpan exCause0, mkDiagnostic exBodySpan exCause0] :=
  (C10_one_per_cause_no_dedup exCx exCauses exBodySpan).2.1 exCause0 (by decide)
